import Mathlib

/-!
# Verification of the UCC Accessibility Map scoring engine

Shallow embedding of the accessibility scoring engine
(`AccessibilityScorer` in the repository: `haversine`, `routePassesNear`,
`scoreRoute`) together with the static profile table
(`ACCESSIBILITY_PROFILES`).

Modelling conventions:
* JavaScript numbers holding geographic quantities (degrees, meters) are
  modelled as real numbers `ℝ`; penalty/score arithmetic (integer-valued in
  the data) is modelled as `ℚ`.
* The JavaScript `Infinity` initialiser of the running minimum distance is
  modelled as `(⊤ : EReal)`.
* JavaScript objects with optional fields are modelled with `Option`.
* The JavaScript `x || d` fallback on numbers (`0`, `undefined` are falsy)
  is `jsOrNum`, on strings (`""`, `undefined` are falsy) it is `jsOrStr`.
* `Math.round` (round half towards `+∞`) is Mathlib's `round` (`⌊x + 1/2⌋`).
* `Array.prototype.sort` with a comparator `(a, b) => k a - k b` is the
  stable `List.mergeSort` with the boolean relation `k a ≤ k b`.
-/

/-- JS `v || d` for numbers: `undefined` and `0` fall back to `d`. -/
def jsOrNum (v : Option ℚ) (d : ℚ) : ℚ :=
  match v with
  | none => d
  | some x => if x = 0 then d else x

/-- JS `v || d` for strings: `undefined` and `""` fall back to `d`. -/
def jsOrStr (v : Option String) (d : String) : String :=
  match v with
  | none => d
  | some s => if s = "" then d else s

/-- Degrees to radians, the `toRad` helper inside `haversine`. -/
noncomputable def toRad (deg : ℝ) : ℝ := deg * Real.pi / 180

/-- JS `Math.atan2 y x`, modelled as the argument of the complex number
`x + y·i` (both lie in `(-π, π]`, and agree at `(0, 0)` where both give `0`). -/
noncomputable def atan2 (y x : ℝ) : ℝ := Complex.arg ⟨x, y⟩

/-- The `haversine` function of the scorer: great-circle distance in meters
between two `[lng, lat]` coordinate pairs, with Earth radius 6371000 m. -/
noncomputable def haversine (coord1 coord2 : ℝ × ℝ) : ℝ :=
  let R : ℝ := 6371000
  let lat1 := toRad coord1.2
  let lat2 := toRad coord2.2
  let dLat := toRad (coord2.2 - coord1.2)
  let dLng := toRad (coord2.1 - coord1.1)
  let a :=
    Real.sin (dLat / 2) * Real.sin (dLat / 2) +
      Real.cos lat1 * Real.cos lat2 * (Real.sin (dLng / 2) * Real.sin (dLng / 2))
  R * 2 * atan2 (Real.sqrt a) (Real.sqrt (1 - a))

/-- Result record of `routePassesNear`: `{ hit, distance }`. The distance is
an `EReal` because the JS code initialises the running minimum with
`Infinity` (modelled as `⊤`), which is returned unchanged on an empty route. -/
structure NearResult where
  hit : Bool
  distance : EReal

/-- The loop of `routePassesNear`, with the running minimum `minDist` made
explicit.  The JS body updates `minDist` before testing `dist <= radius`, but
the updated value is unused when the test succeeds (the hit case returns
`dist` itself), so performing the update only in the miss branch is
equivalent. -/
noncomputable def routePassesNearGo (hazardCoord : ℝ × ℝ) (radius : ℝ) :
    List (ℝ × ℝ) → EReal → NearResult
  | [], minDist => { hit := false, distance := minDist }
  | coord :: rest, minDist =>
    if haversine coord hazardCoord ≤ radius then
      { hit := true, distance := (haversine coord hazardCoord : EReal) }
    else
      routePassesNearGo hazardCoord radius rest
        (if (haversine coord hazardCoord : EReal) < minDist then
          (haversine coord hazardCoord : EReal)
        else minDist)

/-- `routePassesNear(routeCoords, hazard)`.  The JS function reads exactly the
`lat`, `lng` and `radius` fields of its second argument (hazards pass their
own fields, barriers pass an ad-hoc `{lat, lng, radius: 20}` object), so the
embedding takes those three fields directly.  `hazardCoord = [hazard.lng,
hazard.lat]` and `minDist` starts at `Infinity` (`⊤`). -/
noncomputable def routePassesNear (routeCoords : List (ℝ × ℝ))
    (hazardLat hazardLng hazardRadius : ℝ) : NearResult :=
  routePassesNearGo (hazardLng, hazardLat) hazardRadius routeCoords ⊤

/-- A hazard record from the `ACCESSIBILITY_HAZARDS` catalogue. -/
structure Hazard where
  id : String
  type : String
  label : String
  lat : ℝ
  lng : ℝ
  radius : ℝ
  severity : String
  affects : List String
  note : String

/-- A user-reported barrier `{lat, lng, time, description?}` (the map UI
stores `{lat, lng, time}`; `description` is optional). -/
structure Barrier where
  lat : ℝ
  lng : ℝ
  time : ℤ
  description : Option String

/-- An accessibility profile: `label`, `description` and the `penalties`
table keyed by hazard type, then severity. -/
structure Profile where
  label : String
  description : String
  penalties : List (String × List (String × ℚ))

/-- A warning record pushed by `scoreRoute`.  The unknown-profile warning has
only `text` and `severity`, so the other fields are `Option`s. -/
structure Warning where
  id : Option String
  text : String
  note : Option String
  type : Option String
  severity : String
  distance : Option ℤ
deriving DecidableEq

/-- The mutable state of a `scoreRoute` run: `score`, `warnings`,
`hazardsHit`. -/
structure ScoreState where
  score : ℚ
  warnings : List Warning
  hazardsHit : List Hazard

/-- The result record of `scoreRoute`. -/
structure ScoreResult where
  score : ℚ
  level : String
  color : String
  warnings : List Warning
  hazardsHit : List Hazard

/-- JS `Math.round(result.distance)`: rounding of an `EReal` distance
(always finite at the call sites, since it is only applied on a hit). -/
noncomputable def roundE (d : EReal) : ℤ := round d.toReal

/-- `profile.penalties[hazard.type]?.[hazard.severity] || 0`. -/
def penaltyFor (profile : Profile) (hazard : Hazard) : ℚ :=
  jsOrNum ((profile.penalties.lookup hazard.type).bind
    fun tbl => tbl.lookup hazard.severity) 0

/-- One iteration of the hazard loop of `scoreRoute`. -/
noncomputable def hazardStep (routeCoords : List (ℝ × ℝ)) (profile : Profile)
    (st : ScoreState) (hazard : Hazard) : ScoreState :=
  let result := routePassesNear routeCoords hazard.lat hazard.lng hazard.radius
  if result.hit then
    let penalty := penaltyFor profile hazard
    if penalty > 0 then
      { score := st.score - penalty
        warnings := st.warnings ++
          [{ id := some hazard.id
             text := hazard.label
             note := some hazard.note
             type := some hazard.type
             severity := hazard.severity
             distance := some (roundE result.distance) }]
        hazardsHit := st.hazardsHit ++ [hazard] }
    else st
  else st

/-- `BARRIER_RADIUS = 20` (meters). -/
def BARRIER_RADIUS : ℝ := 20

/-- `BARRIER_PENALTY = 15` (points). -/
def BARRIER_PENALTY : ℚ := 15

/-- One iteration of the barrier loop of `scoreRoute`. -/
noncomputable def barrierStep (routeCoords : List (ℝ × ℝ))
    (st : ScoreState) (barrier : Barrier) : ScoreState :=
  let result := routePassesNear routeCoords barrier.lat barrier.lng BARRIER_RADIUS
  if result.hit then
    { st with
        score := st.score - BARRIER_PENALTY
        warnings := st.warnings ++
          [{ id := some ("barrier-" ++ toString barrier.time)
             text := "User-reported barrier nearby"
             note := some (jsOrStr barrier.description "No details provided")
             type := some "barrier"
             severity := "medium"
             distance := some (roundE result.distance) }] }
  else st

/-- `severityOrder = { high: 0, medium: 1, low: 2 }`. -/
def severityOrder : List (String × ℚ) := [("high", 0), ("medium", 1), ("low", 2)]

/-- `severityOrder[w.severity] || 2` — note that the JS `|| 2` fallback also
fires on the value `0` (the rank of `"high"`), since `0` is falsy. -/
def severityRank (w : Warning) : ℚ := jsOrNum (severityOrder.lookup w.severity) 2

/-- The sort relation induced by the comparator
`(a, b) => (severityOrder[a.severity] || 2) - (severityOrder[b.severity] || 2)`. -/
def severityLe (a b : Warning) : Bool := decide (severityRank a ≤ severityRank b)

/-- The body of `scoreRoute` after the profile has been resolved: hazard
loop, barrier loop, clamp, classification, stable sort of the warnings. -/
noncomputable def scoreRouteValid (routeCoords : List (ℝ × ℝ)) (profile : Profile)
    (hazards : List Hazard) (barriers : List Barrier) : ScoreResult :=
  let st0 : ScoreState := { score := 100, warnings := [], hazardsHit := [] }
  let st1 := hazards.foldl (hazardStep routeCoords profile) st0
  let st2 := barriers.foldl (barrierStep routeCoords) st1
  let score := max 0 (min 100 st2.score)
  let levelColor : String × String :=
    if score ≥ 80 then ("high", "#4caf50")
    else if score ≥ 50 then ("medium", "#ff9800")
    else ("low", "#f44336")
  { score := score
    level := levelColor.1
    color := levelColor.2
    warnings := st2.warnings.mergeSort severityLe
    hazardsHit := st2.hazardsHit }

/-- `scoreRoute(routeCoords, profileId, hazards, barriers, profiles)`. -/
noncomputable def scoreRoute (routeCoords : List (ℝ × ℝ)) (profileId : String)
    (hazards : List Hazard) (barriers : List Barrier)
    (profiles : List (String × Profile)) : ScoreResult :=
  match profiles.lookup profileId with
  | none =>
    { score := -1
      level := "unknown"
      color := "#9e9e9e"
      warnings := [{ id := none
                     text := "Unknown profile: " ++ profileId
                     note := none
                     type := none
                     severity := "low"
                     distance := none }]
      hazardsHit := [] }
  | some profile => scoreRouteValid routeCoords profile hazards barriers

/-- The `step-free` profile from the seed data. -/
def stepFreeProfile : Profile :=
  { label := "Step-free (wheelchair)"
    description := "Avoids all steps, flags steep gradients and poor surfaces"
    penalties :=
      [ ("steps",   [("high", 50), ("medium", 30), ("low", 15)])
      , ("steep",   [("high", 25), ("medium", 15), ("low", 5)])
      , ("surface", [("high", 20), ("medium", 10), ("low", 5)])
      , ("narrow",  [("high", 25), ("medium", 15), ("low", 5)])
      , ("kerb",    [("high", 20), ("medium", 10), ("low", 5)]) ] }

/-- The `gentle-gradient` profile from the seed data. -/
def gentleGradientProfile : Profile :=
  { label := "Gentle gradient"
    description := "Avoids steep hills and steps, suitable for crutches or pain/fatigue conditions"
    penalties :=
      [ ("steps",   [("high", 40), ("medium", 25), ("low", 10)])
      , ("steep",   [("high", 35), ("medium", 20), ("low", 10)])
      , ("surface", [("high", 10), ("medium", 5),  ("low", 0)])
      , ("narrow",  [("high", 5),  ("medium", 0),  ("low", 0)])
      , ("kerb",    [("high", 15), ("medium", 10), ("low", 5)]) ] }

/-- The `low-energy` profile from the seed data. -/
def lowEnergyProfile : Profile :=
  { label := "Low energy / fatigue"
    description := "Prefers flat, short routes. Flags anything tiring"
    penalties :=
      [ ("steps",   [("high", 30), ("medium", 20), ("low", 10)])
      , ("steep",   [("high", 30), ("medium", 20), ("low", 10)])
      , ("surface", [("high", 15), ("medium", 10), ("low", 5)])
      , ("narrow",  [("high", 5),  ("medium", 0),  ("low", 0)])
      , ("kerb",    [("high", 10), ("medium", 5),  ("low", 0)]) ] }

/-- The static `ACCESSIBILITY_PROFILES` table from the seed data. -/
def ACCESSIBILITY_PROFILES : List (String × Profile) :=
  [ ("step-free", stepFreeProfile)
  , ("gentle-gradient", gentleGradientProfile)
  , ("low-energy", lowEnergyProfile) ]

/-! ## Specification-side derived definitions -/

/-- A hazard is *triggered* when its proximity test hits and the active
profile assigns it a positive penalty. -/
noncomputable def hazardTriggered (routeCoords : List (ℝ × ℝ)) (profile : Profile)
    (h : Hazard) : Bool :=
  (routePassesNear routeCoords h.lat h.lng h.radius).hit &&
    decide (penaltyFor profile h > 0)

/-- A barrier *hits* when the proximity test with the fixed 20 m radius hits. -/
noncomputable def barrierHits (routeCoords : List (ℝ × ℝ)) (b : Barrier) : Bool :=
  (routePassesNear routeCoords b.lat b.lng BARRIER_RADIUS).hit

/-- The warning record `scoreRoute` pushes for a triggered hazard. -/
noncomputable def mkHazardWarning (routeCoords : List (ℝ × ℝ)) (h : Hazard) : Warning :=
  { id := some h.id
    text := h.label
    note := some h.note
    type := some h.type
    severity := h.severity
    distance := some (roundE (routePassesNear routeCoords h.lat h.lng h.radius).distance) }

/-- The warning record `scoreRoute` pushes for a hitting barrier. -/
noncomputable def mkBarrierWarning (routeCoords : List (ℝ × ℝ)) (b : Barrier) : Warning :=
  { id := some ("barrier-" ++ toString b.time)
    text := "User-reported barrier nearby"
    note := some (jsOrStr b.description "No details provided")
    type := some "barrier"
    severity := "medium"
    distance := some (roundE (routePassesNear routeCoords b.lat b.lng BARRIER_RADIUS).distance) }

/-- Total of the applied penalties of a run: the positive hazard penalties of
the triggered hazards plus the fixed barrier penalty per hitting barrier. -/
noncomputable def appliedPenaltyTotal (routeCoords : List (ℝ × ℝ)) (profile : Profile)
    (hazards : List Hazard) (barriers : List Barrier) : ℚ :=
  ((hazards.filter (hazardTriggered routeCoords profile)).map (penaltyFor profile)).sum +
    BARRIER_PENALTY * ((barriers.filter (barrierHits routeCoords)).length : ℚ)

/-! ## Concrete inputs used in witnesses and counterexamples -/

/-- A hazard type no profile has a penalty entry for, placed right on the
route, so that the proximity test hits but the looked-up penalty is 0. -/
def hzZeroPen : Hazard :=
  { id := "hz-zero"
    type := "footbridge"
    label := "Footbridge works"
    lat := 2
    lng := 1
    radius := 5
    severity := "high"
    affects := []
    note := "temporary" }

/-- A barrier whose description is present but is the empty string. -/
def bEmptyDesc : Barrier := { lat := 2, lng := 1, time := 42, description := some "" }

/-- A profile whose penalty table has an entry for the type `"barrier"`. -/
def barrierTypeProfile : Profile :=
  { label := "barrier-typed"
    description := "has a penalty entry for the hazard type barrier"
    penalties := [("barrier", [("high", 10)])] }

/-- A catalogue hazard carrying the reserved type string `"barrier"`,
placed right on the route. -/
def hzBarrierType : Hazard :=
  { id := "hz-bt"
    type := "barrier"
    label := "Ambiguously typed hazard"
    lat := 2
    lng := 1
    radius := 5
    severity := "high"
    affects := []
    note := "n" }

/-- The `steps-main-quad` hazard from the seed catalogue. -/
def hzStepsMainQuad : Hazard :=
  { id := "steps-main-quad"
    type := "steps"
    label := "Steps at Main Quadrangle"
    lat := 51.8935
    lng := -8.4918
    radius := 15
    severity := "high"
    affects := ["wheelchair", "step-free"]
    note := "Stone steps with no ramp alternative nearby" }

/-- A user-reported barrier at the Main Quadrangle. -/
def bQuad : Barrier :=
  { lat := 51.8935, lng := -8.4918, time := 0, description := none }

/-! ## Lemmas about `haversine` -/

theorem toRad_sub_swap (x y : ℝ) : toRad (x - y) = -toRad (y - x) := by
  unfold toRad; ring

theorem sin_toRad_sub_sq_swap (x y : ℝ) :
    Real.sin (toRad (x - y) / 2) * Real.sin (toRad (x - y) / 2) =
      Real.sin (toRad (y - x) / 2) * Real.sin (toRad (y - x) / 2) := by
  rw [toRad_sub_swap, neg_div, Real.sin_neg]; ring

theorem haversine_self (p : ℝ × ℝ) : haversine p p = 0 := by
  have h1 : (⟨1, 0⟩ : ℂ) = 1 := by
    refine Complex.ext ?_ ?_ <;> simp
  simp [haversine, atan2, toRad, h1, Complex.arg_one]

theorem haversine_nonneg (p q : ℝ × ℝ) : 0 ≤ haversine p q := by
  simp only [haversine, atan2]
  refine mul_nonneg (by norm_num) ?_
  exact Complex.arg_nonneg_iff.mpr (Real.sqrt_nonneg _)

theorem haversine_symm (p q : ℝ × ℝ) : haversine p q = haversine q p := by
  simp only [haversine, atan2]
  rw [sin_toRad_sub_sq_swap q.2 p.2, sin_toRad_sub_sq_swap q.1 p.1,
    mul_comm (Real.cos (toRad p.2)) (Real.cos (toRad q.2))]

theorem routePassesNear_single_self (x y r : ℝ) (hr : 0 ≤ r) :
    routePassesNear [(x, y)] y x r =
      { hit := true, distance := ((0 : ℝ) : EReal) } := by
  simp [routePassesNear, routePassesNearGo, haversine_self, hr]

theorem roundE_zero : roundE ((0 : ℝ) : EReal) = 0 := by
  simp [roundE]

/-! ## Lemmas about `routePassesNear` -/

theorem routePassesNearGo_hit_iff (hc : ℝ × ℝ) (r : ℝ) (coords : List (ℝ × ℝ)) :
    ∀ m : EReal, (routePassesNearGo hc r coords m).hit = true ↔
      ∃ c ∈ coords, haversine c hc ≤ r := by
  induction coords with
  | nil => intro m; simp [routePassesNearGo]
  | cons coord rest ih =>
    intro m
    by_cases h : haversine coord hc ≤ r
    · constructor
      · intro _
        exact ⟨coord, List.mem_cons_self _ _, h⟩
      · intro _
        simp [routePassesNearGo, h]
    · simp only [routePassesNearGo, if_neg h]
      rw [ih]
      constructor
      · rintro ⟨c, hcm, hcle⟩
        exact ⟨c, List.mem_cons_of_mem _ hcm, hcle⟩
      · rintro ⟨c, hcm, hcle⟩
        rcases List.mem_cons.mp hcm with rfl | hcm
        · exact absurd hcle h
        · exact ⟨c, hcm, hcle⟩

theorem routePassesNearGo_hit_first (hc : ℝ × ℝ) (r : ℝ) (coords : List (ℝ × ℝ)) :
    ∀ m : EReal, (routePassesNearGo hc r coords m).hit = true →
      ∃ pre c post, coords = pre ++ c :: post ∧
        (∀ c' ∈ pre, r < haversine c' hc) ∧ haversine c hc ≤ r ∧
        (routePassesNearGo hc r coords m).distance = (haversine c hc : EReal) := by
  induction coords with
  | nil => intro m hhit; simp [routePassesNearGo] at hhit
  | cons coord rest ih =>
    intro m hhit
    by_cases h : haversine coord hc ≤ r
    · refine ⟨[], coord, rest, rfl, by simp, h, ?_⟩
      simp [routePassesNearGo, h]
    · simp only [routePassesNearGo, if_neg h] at hhit ⊢
      obtain ⟨pre, c, post, heq, hpre, hcle, hdist⟩ := ih _ hhit
      refine ⟨coord :: pre, c, post, by rw [heq]; rfl, ?_, hcle, hdist⟩
      intro c' hc'
      rcases List.mem_cons.mp hc' with rfl | hc'
      · exact not_le.mp h
      · exact hpre c' hc'

theorem routePassesNearGo_miss (hc : ℝ × ℝ) (r : ℝ) (coords : List (ℝ × ℝ)) :
    ∀ m : EReal, (routePassesNearGo hc r coords m).hit = false →
      (routePassesNearGo hc r coords m).distance ≤ m ∧
      (∀ c ∈ coords,
        (routePassesNearGo hc r coords m).distance ≤ (haversine c hc : EReal)) ∧
      ((routePassesNearGo hc r coords m).distance = m ∨
        ∃ c ∈ coords,
          (routePassesNearGo hc r coords m).distance = (haversine c hc : EReal)) := by
  induction coords with
  | nil =>
    intro m _
    simp [routePassesNearGo]
  | cons coord rest ih =>
    intro m hmiss
    by_cases h : haversine coord hc ≤ r
    · simp [routePassesNearGo, h] at hmiss
    · simp only [routePassesNearGo, if_neg h] at hmiss ⊢
      set m' := if (haversine coord hc : EReal) < m then (haversine coord hc : EReal)
        else m with hm'
      obtain ⟨h1, h2, h3⟩ := ih m' hmiss
      have hm'm : m' ≤ m := by
        rw [hm']; split_ifs with hlt
        · exact le_of_lt hlt
        · exact le_refl m
      have hm'f : m' ≤ (haversine coord hc : EReal) := by
        rw [hm']; split_ifs with hlt
        · exact le_refl _
        · exact not_lt.mp hlt
      refine ⟨le_trans h1 hm'm, ?_, ?_⟩
      · intro c hcm
        rcases List.mem_cons.mp hcm with rfl | hcm
        · exact le_trans h1 hm'f
        · exact h2 c hcm
      · rcases h3 with h3 | ⟨c, hcm, hceq⟩
        · by_cases hlt : (haversine coord hc : EReal) < m
          · exact Or.inr ⟨coord, List.mem_cons_self _ _,
              h3.trans (by rw [hm', if_pos hlt])⟩
          · exact Or.inl (h3.trans (by rw [hm', if_neg hlt]))
        · exact Or.inr ⟨c, List.mem_cons_of_mem _ hcm, hceq⟩

theorem routePassesNearGo_distance_ne_top (hc : ℝ × ℝ) (r : ℝ) (coord : ℝ × ℝ)
    (rest : List (ℝ × ℝ)) (m : EReal) :
    (routePassesNearGo hc r (coord :: rest) m).distance ≠ ⊤ := by
  cases hhit : (routePassesNearGo hc r (coord :: rest) m).hit
  · obtain ⟨-, h2, -⟩ := routePassesNearGo_miss hc r (coord :: rest) m hhit
    exact ne_top_of_le_ne_top (EReal.coe_ne_top _) (h2 coord (List.mem_cons_self _ _))
  · obtain ⟨pre, c, post, -, -, -, hdist⟩ :=
      routePassesNearGo_hit_first hc r (coord :: rest) m hhit
    rw [hdist]
    exact EReal.coe_ne_top _

/-! ## Lemmas about the scoring pipeline -/

theorem hazardStep_eq (routeCoords : List (ℝ × ℝ)) (profile : Profile)
    (st : ScoreState) (h : Hazard) :
    hazardStep routeCoords profile st h =
      if hazardTriggered routeCoords profile h then
        { score := st.score - penaltyFor profile h
          warnings := st.warnings ++ [mkHazardWarning routeCoords h]
          hazardsHit := st.hazardsHit ++ [h] } else st := by
  unfold hazardStep hazardTriggered mkHazardWarning
  cases hhit : (routePassesNear routeCoords h.lat h.lng h.radius).hit
  · simp [hhit]
  · by_cases hp : penaltyFor profile h > 0
    · simp [hhit, hp]
    · simp [hhit, hp]

theorem barrierStep_eq (routeCoords : List (ℝ × ℝ)) (st : ScoreState) (b : Barrier) :
    barrierStep routeCoords st b =
      if barrierHits routeCoords b then
        { score := st.score - BARRIER_PENALTY
          warnings := st.warnings ++ [mkBarrierWarning routeCoords b]
          hazardsHit := st.hazardsHit } else st := by
  unfold barrierStep barrierHits mkBarrierWarning
  cases hhit : (routePassesNear routeCoords b.lat b.lng BARRIER_RADIUS).hit
  · simp [hhit]
  · simp [hhit]

theorem hazardFold (routeCoords : List (ℝ × ℝ)) (profile : Profile)
    (hazards : List Hazard) : ∀ st : ScoreState,
    hazards.foldl (hazardStep routeCoords profile) st =
      { score := st.score -
          ((hazards.filter (hazardTriggered routeCoords profile)).map
            (penaltyFor profile)).sum
        warnings := st.warnings ++
          (hazards.filter (hazardTriggered routeCoords profile)).map
            (mkHazardWarning routeCoords)
        hazardsHit := st.hazardsHit ++
          hazards.filter (hazardTriggered routeCoords profile) } := by
  induction hazards with
  | nil => intro st; simp
  | cons h hs ih =>
    intro st
    rw [List.foldl_cons, hazardStep_eq]
    by_cases ht : hazardTriggered routeCoords profile h
    · rw [if_pos ht, ih]
      simp only [List.filter_cons, ht, ite_true, List.map_cons, List.sum_cons,
        ScoreState.mk.injEq, List.append_assoc, List.singleton_append,
        List.cons_append, List.nil_append]
      exact ⟨by ring, trivial, trivial⟩
    · rw [if_neg ht, ih]
      simp [List.filter_cons, ht]

theorem barrierFold (routeCoords : List (ℝ × ℝ)) (barriers : List Barrier) :
    ∀ st : ScoreState,
    barriers.foldl (barrierStep routeCoords) st =
      { score := st.score - BARRIER_PENALTY *
          (((barriers.filter (barrierHits routeCoords)).length : ℚ))
        warnings := st.warnings ++
          (barriers.filter (barrierHits routeCoords)).map (mkBarrierWarning routeCoords)
        hazardsHit := st.hazardsHit } := by
  induction barriers with
  | nil => intro st; simp
  | cons b bs ih =>
    intro st
    rw [List.foldl_cons, barrierStep_eq]
    by_cases hb : barrierHits routeCoords b
    · rw [if_pos hb, ih]
      simp only [List.filter_cons, hb, ite_true, List.map_cons, List.length_cons,
        ScoreState.mk.injEq, List.append_assoc, List.singleton_append,
        List.cons_append, List.nil_append]
      refine ⟨?_, trivial, trivial⟩
      push_cast
      ring
    · rw [if_neg hb, ih]
      simp [List.filter_cons, hb]

theorem scoreRouteValid_state (routeCoords : List (ℝ × ℝ)) (profile : Profile)
    (hazards : List Hazard) (barriers : List Barrier) :
    scoreRouteValid routeCoords profile hazards barriers =
      { score := max 0 (min 100
          (100 - appliedPenaltyTotal routeCoords profile hazards barriers))
        level :=
          if max 0 (min 100
              (100 - appliedPenaltyTotal routeCoords profile hazards barriers)) ≥ 80
          then "high"
          else if max 0 (min 100
              (100 - appliedPenaltyTotal routeCoords profile hazards barriers)) ≥ 50
          then "medium" else "low"
        color :=
          if max 0 (min 100
              (100 - appliedPenaltyTotal routeCoords profile hazards barriers)) ≥ 80
          then "#4caf50"
          else if max 0 (min 100
              (100 - appliedPenaltyTotal routeCoords profile hazards barriers)) ≥ 50
          then "#ff9800" else "#f44336"
        warnings :=
          ((hazards.filter (hazardTriggered routeCoords profile)).map
              (mkHazardWarning routeCoords) ++
            (barriers.filter (barrierHits routeCoords)).map
              (mkBarrierWarning routeCoords)).mergeSort severityLe
        hazardsHit := hazards.filter (hazardTriggered routeCoords profile) } := by
  simp only [scoreRouteValid]
  rw [hazardFold, barrierFold]
  have hscore :
      (100 : ℚ) -
          ((hazards.filter (hazardTriggered routeCoords profile)).map
            (penaltyFor profile)).sum -
          BARRIER_PENALTY * (((barriers.filter (barrierHits routeCoords)).length : ℚ)) =
        100 - appliedPenaltyTotal routeCoords profile hazards barriers := by
    unfold appliedPenaltyTotal
    ring
  simp only [List.nil_append, hscore, ScoreResult.mk.injEq]
  refine ⟨trivial, ?_, ?_, trivial, trivial⟩ <;> split_ifs <;> rfl

theorem mergeSort_pair {α : Type} (le : α → α → Bool) (a b : α) :
    [a, b].mergeSort le = if le a b then [a, b] else [b, a] := by
  rw [List.mergeSort]
  simp [List.splitInTwo, List.splitAt, List.splitAt.go, List.merge]

/-! ## Claim theorems -/

/-- C9: the haversine distance is symmetric, zero on equal points, and
non-negative. -/
theorem haversine_symm_self_nonneg (a b : ℝ × ℝ) :
    haversine a b = haversine b a ∧ haversine a a = 0 ∧ 0 ≤ haversine a b :=
  ⟨haversine_symm a b, haversine_self a, haversine_nonneg a b⟩

/-- C8: `routePassesNear` yields an undefined minimum (the `Infinity`
sentinel, modelled as `⊤`) exactly on the empty route; on every non-empty
route the returned distance is an actual (finite) distance. -/
theorem routePassesNear_empty_route (route : List (ℝ × ℝ)) (la ln r : ℝ) :
    routePassesNear [] la ln r = { hit := false, distance := ⊤ } ∧
      ((routePassesNear route la ln r).distance = ⊤ ↔ route = []) := by
  refine ⟨rfl, ?_, ?_⟩
  · intro htop
    cases route with
    | nil => rfl
    | cons c rest =>
      exact absurd htop (routePassesNearGo_distance_ne_top (ln, la) r c rest ⊤)
  · rintro rfl
    rfl

/-- C2: for a non-empty route, `routePassesNear` hits iff some route vertex
is within the radius of the center; on a hit the reported distance is the
distance to the first qualifying vertex in route order, and on a miss it is
the true minimum distance over all vertices. -/
theorem routePassesNear_hit_and_distance_spec (route : List (ℝ × ℝ))
    (la ln r : ℝ) (hne : route ≠ []) :
    ((routePassesNear route la ln r).hit = true ↔
      ∃ c ∈ route, haversine c (ln, la) ≤ r) ∧
    ((routePassesNear route la ln r).hit = true →
      ∃ pre c post, route = pre ++ c :: post ∧
        (∀ c' ∈ pre, r < haversine c' (ln, la)) ∧ haversine c (ln, la) ≤ r ∧
        (routePassesNear route la ln r).distance = (haversine c (ln, la) : EReal)) ∧
    ((routePassesNear route la ln r).hit = false →
      ∃ c ∈ route,
        (routePassesNear route la ln r).distance = (haversine c (ln, la) : EReal) ∧
        ∀ c' ∈ route, haversine c (ln, la) ≤ haversine c' (ln, la)) := by
  unfold routePassesNear
  refine ⟨routePassesNearGo_hit_iff _ _ _ _,
    routePassesNearGo_hit_first _ _ _ _, ?_⟩
  intro hmiss
  obtain ⟨-, h2, h3⟩ := routePassesNearGo_miss (ln, la) r route ⊤ hmiss
  rcases h3 with h3 | ⟨c, hcm, hceq⟩
  · cases route with
    | nil => exact absurd rfl hne
    | cons c rest =>
      have hle := h2 c (List.mem_cons_self _ _)
      rw [h3] at hle
      exact absurd (top_le_iff.mp hle) (EReal.coe_ne_top _)
  · refine ⟨c, hcm, hceq, ?_⟩
    intro c' hc'
    have hle := h2 c' hc'
    rw [hceq] at hle
    exact EReal.coe_le_coe_iff.mp hle

theorem routePassesNear_hit_and_distance_spec_witness :
    (routePassesNear [((0 : ℝ), (0 : ℝ))] 0 0 1).hit = true ↔
      ∃ c ∈ [((0 : ℝ), (0 : ℝ))], haversine c (0, 0) ≤ 1 :=
  (routePassesNear_hit_and_distance_spec [((0 : ℝ), (0 : ℝ))] 0 0 1 (by simp)).1

/-- C4: when the profile id is not a key of the profile table, `scoreRoute`
returns the sentinel result immediately — score `-1`, level `unknown`,
neutral gray color, empty `hazardsHit`, and a single low-severity warning
naming the unknown profile id — independently of hazards and barriers. -/
theorem scoreRoute_unknown_profile_sentinel (routeCoords : List (ℝ × ℝ))
    (profileId : String) (hazards : List Hazard) (barriers : List Barrier)
    (profiles : List (String × Profile))
    (habs : profiles.lookup profileId = none) :
    scoreRoute routeCoords profileId hazards barriers profiles =
      { score := -1
        level := "unknown"
        color := "#9e9e9e"
        warnings := [{ id := none
                       text := "Unknown profile: " ++ profileId
                       note := none
                       type := none
                       severity := "low"
                       distance := none }]
        hazardsHit := [] } := by
  unfold scoreRoute
  rw [habs]

theorem scoreRoute_unknown_profile_sentinel_witness :
    scoreRoute [] "wheelchair" [] [] ACCESSIBILITY_PROFILES =
      { score := -1
        level := "unknown"
        color := "#9e9e9e"
        warnings := [{ id := none
                       text := "Unknown profile: " ++ "wheelchair"
                       note := none
                       type := none
                       severity := "low"
                       distance := none }]
        hazardsHit := [] } :=
  scoreRoute_unknown_profile_sentinel [] "wheelchair" [] [] ACCESSIBILITY_PROFILES rfl

/-- C1: with a valid profile id, the returned score is the clamp to `[0,100]`
of `100` minus the total of applied penalties (the positive hazard penalties
of hazards hit plus the fixed barrier penalty per barrier hit), and in
particular lies in `[0,100]`. -/
theorem scoreRoute_score_is_clamped_penalty_sum (routeCoords : List (ℝ × ℝ))
    (profileId : String) (hazards : List Hazard) (barriers : List Barrier)
    (profiles : List (String × Profile)) (profile : Profile)
    (hres : profiles.lookup profileId = some profile) :
    (scoreRoute routeCoords profileId hazards barriers profiles).score =
      max 0 (min 100
        (100 - appliedPenaltyTotal routeCoords profile hazards barriers)) ∧
    0 ≤ (scoreRoute routeCoords profileId hazards barriers profiles).score ∧
    (scoreRoute routeCoords profileId hazards barriers profiles).score ≤ 100 := by
  have heq : scoreRoute routeCoords profileId hazards barriers profiles =
      scoreRouteValid routeCoords profile hazards barriers := by
    unfold scoreRoute
    rw [hres]
  rw [heq, scoreRouteValid_state]
  exact ⟨rfl, le_max_left _ _, max_le (by norm_num) (min_le_left _ _)⟩

theorem scoreRoute_score_is_clamped_penalty_sum_witness :
    (scoreRoute [] "step-free" [] [] ACCESSIBILITY_PROFILES).score =
      max 0 (min 100 (100 - appliedPenaltyTotal [] stepFreeProfile [] [])) ∧
    0 ≤ (scoreRoute [] "step-free" [] [] ACCESSIBILITY_PROFILES).score ∧
    (scoreRoute [] "step-free" [] [] ACCESSIBILITY_PROFILES).score ≤ 100 :=
  scoreRoute_score_is_clamped_penalty_sum [] "step-free" [] [] ACCESSIBILITY_PROFILES
    stepFreeProfile rfl

/-- C6: with a valid profile id, the returned level and color are determined
exactly by the (clamped) returned score: at least 80 gives `high`/green,
at least 50 but below 80 gives `medium`/orange, below 50 gives `low`/red. -/
theorem scoreRoute_classification_by_score (routeCoords : List (ℝ × ℝ))
    (profileId : String) (hazards : List Hazard) (barriers : List Barrier)
    (profiles : List (String × Profile)) (profile : Profile)
    (hres : profiles.lookup profileId = some profile) :
    ((scoreRoute routeCoords profileId hazards barriers profiles).level =
      if (scoreRoute routeCoords profileId hazards barriers profiles).score ≥ 80
      then "high"
      else if (scoreRoute routeCoords profileId hazards barriers profiles).score ≥ 50
      then "medium" else "low") ∧
    ((scoreRoute routeCoords profileId hazards barriers profiles).color =
      if (scoreRoute routeCoords profileId hazards barriers profiles).score ≥ 80
      then "#4caf50"
      else if (scoreRoute routeCoords profileId hazards barriers profiles).score ≥ 50
      then "#ff9800" else "#f44336") := by
  have heq : scoreRoute routeCoords profileId hazards barriers profiles =
      scoreRouteValid routeCoords profile hazards barriers := by
    unfold scoreRoute
    rw [hres]
  rw [heq, scoreRouteValid_state]
  exact ⟨rfl, rfl⟩

theorem scoreRoute_classification_by_score_witness :
    ((scoreRoute [] "step-free" [] [] ACCESSIBILITY_PROFILES).level =
      if (scoreRoute [] "step-free" [] [] ACCESSIBILITY_PROFILES).score ≥ 80
      then "high"
      else if (scoreRoute [] "step-free" [] [] ACCESSIBILITY_PROFILES).score ≥ 50
      then "medium" else "low") ∧
    ((scoreRoute [] "step-free" [] [] ACCESSIBILITY_PROFILES).color =
      if (scoreRoute [] "step-free" [] [] ACCESSIBILITY_PROFILES).score ≥ 80
      then "#4caf50"
      else if (scoreRoute [] "step-free" [] [] ACCESSIBILITY_PROFILES).score ≥ 50
      then "#ff9800" else "#f44336") :=
  scoreRoute_classification_by_score [] "step-free" [] [] ACCESSIBILITY_PROFILES
    stepFreeProfile rfl

/-- C7: a hazard whose proximity test hits but whose penalty under the
active profile is zero — absent table entry or explicit 0 — leaves the run
unchanged: the hazard step is the identity on the scoring state, and
dropping the hazard from the catalogue leaves the whole result unchanged
(no score change, no warning, no `hazardsHit` entry). -/
theorem scoreRoute_zero_penalty_hazard_noop (routeCoords : List (ℝ × ℝ))
    (profileId : String) (pre post : List Hazard) (hz : Hazard)
    (barriers : List Barrier) (profiles : List (String × Profile))
    (profile : Profile)
    (hres : profiles.lookup profileId = some profile)
    (_hhit : (routePassesNear routeCoords hz.lat hz.lng hz.radius).hit = true)
    (hpen : penaltyFor profile hz = 0) :
    (∀ st : ScoreState, hazardStep routeCoords profile st hz = st) ∧
    scoreRoute routeCoords profileId (pre ++ hz :: post) barriers profiles =
      scoreRoute routeCoords profileId (pre ++ post) barriers profiles := by
  have htrig : hazardTriggered routeCoords profile hz = false := by
    unfold hazardTriggered
    rw [hpen]
    simp
  have hstep : ∀ st : ScoreState, hazardStep routeCoords profile st hz = st := by
    intro st
    rw [hazardStep_eq]
    simp [htrig]
  refine ⟨hstep, ?_⟩
  unfold scoreRoute
  rw [hres]
  simp only [scoreRouteValid]
  rw [List.foldl_append, List.foldl_cons, hstep, ← List.foldl_append]

theorem scoreRoute_zero_penalty_hazard_noop_witness :
    hazardStep [((1 : ℝ), 2)] stepFreeProfile
        { score := 100, warnings := [], hazardsHit := [] } hzZeroPen =
      { score := 100, warnings := [], hazardsHit := [] } ∧
    scoreRoute [((1 : ℝ), 2)] "step-free" ([] ++ hzZeroPen :: []) []
        ACCESSIBILITY_PROFILES =
      scoreRoute [((1 : ℝ), 2)] "step-free" ([] ++ ([] : List Hazard)) []
        ACCESSIBILITY_PROFILES := by
  have hhit : (routePassesNear [((1 : ℝ), 2)] hzZeroPen.lat hzZeroPen.lng
      hzZeroPen.radius).hit = true := by
    simp [hzZeroPen, routePassesNear_single_self 1 2 5 (by norm_num)]
  have h := scoreRoute_zero_penalty_hazard_noop [((1 : ℝ), 2)] "step-free"
    [] [] hzZeroPen [] ACCESSIBILITY_PROFILES stepFreeProfile rfl hhit rfl
  exact ⟨h.1 _, h.2⟩

/-- C5 (amended): with a valid profile, every barrier is proximity-tested
with the fixed 20 m radius; each hitting barrier deducts the fixed penalty
15, the same for every profile, and contributes exactly one warning of type
`barrier`, severity `medium`, rounded distance, id `"barrier-"` followed by
the report timestamp, and note equal to the barrier's description when that
is a non-empty string, and the fallback `"No details provided"` when the
description is absent or empty. -/
theorem scoreRoute_barrier_phase_spec (routeCoords : List (ℝ × ℝ))
    (profileId : String) (hazards : List Hazard) (barriers : List Barrier)
    (profiles : List (String × Profile)) (profile : Profile)
    (hres : profiles.lookup profileId = some profile) :
    (scoreRoute routeCoords profileId hazards barriers profiles).score =
      max 0 (min 100 (100 -
        (((hazards.filter (hazardTriggered routeCoords profile)).map
            (penaltyFor profile)).sum +
          15 * (((barriers.filter fun b =>
            (routePassesNear routeCoords b.lat b.lng 20).hit).length : ℚ))))) ∧
    (scoreRoute routeCoords profileId hazards barriers profiles).warnings.Perm
      ((hazards.filter (hazardTriggered routeCoords profile)).map
          (mkHazardWarning routeCoords) ++
        (barriers.filter fun b =>
            (routePassesNear routeCoords b.lat b.lng 20).hit).map fun b =>
          { id := some ("barrier-" ++ toString b.time)
            text := "User-reported barrier nearby"
            note := some (jsOrStr b.description "No details provided")
            type := some "barrier"
            severity := "medium"
            distance :=
              some (roundE (routePassesNear routeCoords b.lat b.lng 20).distance) }) := by
  have heq : scoreRoute routeCoords profileId hazards barriers profiles =
      scoreRouteValid routeCoords profile hazards barriers := by
    unfold scoreRoute
    rw [hres]
  rw [heq, scoreRouteValid_state]
  constructor
  · rfl
  · exact List.mergeSort_perm _ _

theorem scoreRoute_barrier_phase_spec_witness :
    (scoreRoute [] "step-free" [] [] ACCESSIBILITY_PROFILES).score =
      max 0 (min 100 (100 -
        (((([] : List Hazard).filter (hazardTriggered [] stepFreeProfile)).map
            (penaltyFor stepFreeProfile)).sum +
          15 * (((([] : List Barrier).filter fun b =>
            (routePassesNear [] b.lat b.lng 20).hit).length : ℚ))))) :=
  (scoreRoute_barrier_phase_spec [] "step-free" [] [] ACCESSIBILITY_PROFILES
    stepFreeProfile rfl).1

/-- C5 counterexample: a barrier whose description is present but empty gets
the fallback note `"No details provided"` instead of its (empty) description,
so the warning note is not the barrier's description even though the
description is not absent. -/
theorem scoreRoute_barrier_empty_description_cex :
    bEmptyDesc.description = some "" ∧
    ((scoreRoute [((1 : ℝ), 2)] "step-free" [] [bEmptyDesc]
        ACCESSIBILITY_PROFILES).warnings.map fun w => w.note) =
      [some "No details provided"] := by
  refine ⟨rfl, ?_⟩
  have hl : List.lookup "step-free" ACCESSIBILITY_PROFILES = some stepFreeProfile := rfl
  have heq : scoreRoute [((1 : ℝ), 2)] "step-free" [] [bEmptyDesc]
      ACCESSIBILITY_PROFILES =
      scoreRouteValid [((1 : ℝ), 2)] stepFreeProfile [] [bEmptyDesc] := by
    unfold scoreRoute
    rw [hl]
  rw [heq, scoreRouteValid_state]
  have hb : barrierHits [((1 : ℝ), 2)] bEmptyDesc = true := by
    simp [barrierHits, bEmptyDesc, BARRIER_RADIUS,
      routePassesNear_single_self 1 2 20 (by norm_num)]
  simp only [List.filter_nil, List.map_nil, List.nil_append, List.filter_cons, hb,
    ite_true, List.mergeSort_singleton, List.map_cons]
  simp [mkBarrierWarning, bEmptyDesc, jsOrStr]

/-- C10 (amended): with a valid profile, and provided no hazard in the
catalogue carries the reserved type string `"barrier"` (true of the shipped
catalogue, whose types are steps, steep, surface, narrow and kerb), the ids
of the warnings whose type is not `"barrier"` are exactly (as a multiset)
the ids of `hazardsHit`, and the total number of warnings equals the number
of hazards hit plus the number of barriers that hit. -/
theorem scoreRoute_warnings_correspondence (routeCoords : List (ℝ × ℝ))
    (profileId : String) (hazards : List Hazard) (barriers : List Barrier)
    (profiles : List (String × Profile)) (profile : Profile)
    (hres : profiles.lookup profileId = some profile)
    (hty : ∀ h ∈ hazards, h.type ≠ "barrier") :
    (((scoreRoute routeCoords profileId hazards barriers profiles).warnings.filter
        fun w => decide (w.type ≠ some "barrier")).map fun w => w.id).Perm
      ((scoreRoute routeCoords profileId hazards barriers profiles).hazardsHit.map
        fun h => some h.id) ∧
    (scoreRoute routeCoords profileId hazards barriers profiles).warnings.length =
      (scoreRoute routeCoords profileId hazards barriers profiles).hazardsHit.length +
        (barriers.filter (barrierHits routeCoords)).length := by
  have heq : scoreRoute routeCoords profileId hazards barriers profiles =
      scoreRouteValid routeCoords profile hazards barriers := by
    unfold scoreRoute
    rw [hres]
  rw [heq, scoreRouteValid_state]
  constructor
  · have hperm :
        ((((hazards.filter (hazardTriggered routeCoords profile)).map
              (mkHazardWarning routeCoords) ++
            (barriers.filter (barrierHits routeCoords)).map
              (mkBarrierWarning routeCoords)).mergeSort severityLe).filter
          fun w => decide (w.type ≠ some "barrier")).Perm
          (((hazards.filter (hazardTriggered routeCoords profile)).map
              (mkHazardWarning routeCoords) ++
            (barriers.filter (barrierHits routeCoords)).map
              (mkBarrierWarning routeCoords)).filter
            fun w => decide (w.type ≠ some "barrier")) :=
      (List.mergeSort_perm _ _).filter _
    have h1 : ((hazards.filter (hazardTriggered routeCoords profile)).map
        (mkHazardWarning routeCoords)).filter
          (fun w => decide (w.type ≠ some "barrier")) =
        (hazards.filter (hazardTriggered routeCoords profile)).map
          (mkHazardWarning routeCoords) := by
      rw [List.filter_eq_self]
      intro w hwmem
      obtain ⟨h, hmem, rfl⟩ := List.mem_map.mp hwmem
      have hh : h ∈ hazards := (List.mem_filter.mp hmem).1
      simp [mkHazardWarning, hty h hh]
    have h2 : ((barriers.filter (barrierHits routeCoords)).map
        (mkBarrierWarning routeCoords)).filter
          (fun w => decide (w.type ≠ some "barrier")) = [] := by
      rw [List.filter_eq_nil_iff]
      intro w hwmem
      obtain ⟨b, hmem, rfl⟩ := List.mem_map.mp hwmem
      simp [mkBarrierWarning]
    have heq2 : ((((hazards.filter (hazardTriggered routeCoords profile)).map
            (mkHazardWarning routeCoords) ++
          (barriers.filter (barrierHits routeCoords)).map
            (mkBarrierWarning routeCoords)).filter
          fun w => decide (w.type ≠ some "barrier")).map fun w => w.id) =
        (hazards.filter (hazardTriggered routeCoords profile)).map
          fun h => some h.id := by
      rw [List.filter_append, h1, h2, List.append_nil, List.map_map]
      rfl
    exact heq2 ▸ (hperm.map fun w => w.id)
  · simp

theorem scoreRoute_warnings_correspondence_witness :
    (((scoreRoute [] "step-free" [] [] ACCESSIBILITY_PROFILES).warnings.filter
        fun w => decide (w.type ≠ some "barrier")).map fun w => w.id).Perm
      ((scoreRoute [] "step-free" [] [] ACCESSIBILITY_PROFILES).hazardsHit.map
        fun h => some h.id) :=
  (scoreRoute_warnings_correspondence [] "step-free" [] [] ACCESSIBILITY_PROFILES
    stepFreeProfile rfl (by simp)).1

/-- C10 counterexample: a catalogue hazard whose type is the string
`"barrier"` is penalised and lands in `hazardsHit`, but its warning carries
type `"barrier"`, so no warning whose type differs from `"barrier"` matches
it — the claimed exact correspondence fails for this call. -/
theorem scoreRoute_warnings_correspondence_cex :
    ((scoreRoute [((1 : ℝ), 2)] "p" [hzBarrierType] []
        [("p", barrierTypeProfile)]).hazardsHit.map fun h => h.id) = ["hz-bt"] ∧
    ((scoreRoute [((1 : ℝ), 2)] "p" [hzBarrierType] []
        [("p", barrierTypeProfile)]).warnings.filter
      fun w => decide (w.type ≠ some "barrier")) = [] := by
  have hl : List.lookup "p" [("p", barrierTypeProfile)] = some barrierTypeProfile := rfl
  have heq : scoreRoute [((1 : ℝ), 2)] "p" [hzBarrierType] []
      [("p", barrierTypeProfile)] =
      scoreRouteValid [((1 : ℝ), 2)] barrierTypeProfile [hzBarrierType] [] := by
    unfold scoreRoute
    rw [hl]
  have ht : hazardTriggered [((1 : ℝ), 2)] barrierTypeProfile hzBarrierType = true := by
    unfold hazardTriggered
    rw [show hzBarrierType.lat = (2 : ℝ) from rfl,
      show hzBarrierType.lng = (1 : ℝ) from rfl,
      show hzBarrierType.radius = (5 : ℝ) from rfl,
      routePassesNear_single_self 1 2 5 (by norm_num)]
    simp [penaltyFor, barrierTypeProfile, hzBarrierType, jsOrNum]
  rw [heq, scoreRouteValid_state]
  constructor
  · simp only [List.filter_cons, ht, ite_true, List.filter_nil, List.map_cons,
      List.map_nil]
    simp [hzBarrierType]
  · simp only [List.filter_cons, ht, ite_true, List.filter_nil, List.map_cons,
      List.map_nil, List.append_nil, List.mergeSort_singleton]
    simp [mkHazardWarning, hzBarrierType]

/-- C3 (code bug): the comparator reads `severityOrder[a.severity] || 2`, and
since the rank of `"high"` is the falsy number `0`, a high-severity warning
is ranked 2 rather than 0.  On a route triggering the high-severity
`steps-main-quad` hazard and a medium-severity barrier warning, the returned
order is medium before high — contradicting the claimed high-first order
(and the source comment `Sort warnings by severity (high first)`). -/
theorem scoreRoute_severity_sort_bug :
    ((scoreRoute [((-8.4918 : ℝ), 51.8935)] "step-free" [hzStepsMainQuad]
        [bQuad] ACCESSIBILITY_PROFILES).warnings.map fun w => w.severity) =
      ["medium", "high"] := by
  have hl : List.lookup "step-free" ACCESSIBILITY_PROFILES = some stepFreeProfile := rfl
  have heq : scoreRoute [((-8.4918 : ℝ), 51.8935)] "step-free" [hzStepsMainQuad]
      [bQuad] ACCESSIBILITY_PROFILES =
      scoreRouteValid [((-8.4918 : ℝ), 51.8935)] stepFreeProfile [hzStepsMainQuad]
        [bQuad] := by
    unfold scoreRoute
    rw [hl]
  have ht : hazardTriggered [((-8.4918 : ℝ), 51.8935)] stepFreeProfile
      hzStepsMainQuad = true := by
    unfold hazardTriggered
    rw [show hzStepsMainQuad.lat = (51.8935 : ℝ) from rfl,
      show hzStepsMainQuad.lng = (-8.4918 : ℝ) from rfl,
      show hzStepsMainQuad.radius = (15 : ℝ) from rfl,
      routePassesNear_single_self (-8.4918) 51.8935 15 (by norm_num)]
    simp [penaltyFor, stepFreeProfile, hzStepsMainQuad, jsOrNum]
  have hb : barrierHits [((-8.4918 : ℝ), 51.8935)] bQuad = true := by
    simp [barrierHits, bQuad, BARRIER_RADIUS,
      routePassesNear_single_self (-8.4918) 51.8935 20 (by norm_num)]
  rw [heq, scoreRouteValid_state]
  simp only [List.filter_cons, ht, hb, ite_true, List.filter_nil, List.map_cons,
    List.map_nil, List.singleton_append, List.cons_append, List.nil_append]
  rw [mergeSort_pair]
  have hle : severityLe
      (mkHazardWarning [((-8.4918 : ℝ), 51.8935)] hzStepsMainQuad)
      (mkBarrierWarning [((-8.4918 : ℝ), 51.8935)] bQuad) = false := by
    simp only [severityLe, severityRank, mkHazardWarning, mkBarrierWarning,
      hzStepsMainQuad]
    decide
  rw [hle]
  simp [mkHazardWarning, mkBarrierWarning, hzStepsMainQuad]
